import Mathlib

/-!
# Seat reservation server — verification of the specification claims

Shallow embedding of `src/server.js`: an in-memory seat store with three
HTTP operations (`POST /lock/:id`, `POST /confirm/:id`, `POST /unlock/:id`),
a read-only view (`GET /seats`), and a scheduled-expiry callback armed by
`armSeatExpiry`.  The server is single-threaded (Node event loop), so every
request handler and every timer callback runs to completion atomically; the
embedding therefore models each handler as a pure function from the store
(plus the current clock reading `now = Date.now()`) to a response and a new
store.

Modelling conventions:
* JavaScript numbers used here are non-negative integers (`Date.now()`,
  seat ids), embedded as `Nat`.
* A seat record `{ status, lockedBy?, lockExpiresAt?, timeoutId? }` becomes
  a structure with `Option` fields for the optional properties.
* The JS truthiness test `seat.lockExpiresAt && seat.lockExpiresAt <= now`
  is embedded exactly: the field must be present, nonzero, and `≤ now`.
* `seats` is a mutable object keyed by seat id; embedded as
  `Nat → Option Seat`, with assignment `seats[id] = v` as a pointwise
  update.  Ids are never added or removed after startup.
* `setTimeout(cb, LOCK_TTL + 50)` arms one pending timer per seat; the
  handle is stored in `timeoutId`.  The embedding records the intended
  firing instant (arming time + `LOCK_TTL + 50`) as the handle value; the
  callback body (lines 37-41 of the source) is embedded as `fireExpiry`,
  parameterised by the clock reading `now = Date.now()` at firing time.
-/

/-- Seat lifecycle status, from the source comment
`status: "available" | "locked" | "booked"`. -/
inductive Status where
  | available
  | locked
  | booked
deriving DecidableEq, Repr

/-- One seat record:
`seats[seatId] = { status, lockedBy?, lockExpiresAt?, timeoutId? }`. -/
structure Seat where
  status : Status
  lockedBy : Option String := none
  lockExpiresAt : Option Nat := none
  timeoutId : Option Nat := none
deriving DecidableEq, Repr

/-- The in-memory store `seats`, keyed by seat id. -/
abbrev Store := Nat → Option Seat

/-- An HTTP response: `res.status(code).json({ message })`. -/
structure HttpResp where
  code : Nat
  message : String
deriving DecidableEq, Repr

/-- `const LOCK_TTL = 60_000` (one minute, in ms). -/
def LOCK_TTL : Nat := 60000

/-- The `+ 50` slack in `setTimeout(..., LOCK_TTL + 50)`. -/
def TIMER_BUFFER : Nat := 50

/-- `const TOTAL_SEATS = 10`. -/
def TOTAL_SEATS : Nat := 10

/-- A fresh record `{ status: "available" }` (all optional fields absent). -/
def freshSeat : Seat := { status := Status.available }

/-- Assignment `seats[id] = s`. -/
def setSeat (st : Store) (id : Nat) (s : Seat) : Store :=
  fun j => if j = id then some s else st j

/-- Startup state: seats `1..TOTAL_SEATS` all `{ status: "available" }`. -/
def initialSeats : Store :=
  fun j => if 1 ≤ j ∧ j ≤ TOTAL_SEATS then some freshSeat else none

/-- The JS guard `e && e <= now` on the optional expiry instant: the field
is present, truthy (nonzero), and has passed. -/
def truthyExpired (e : Option Nat) (now : Nat) : Bool :=
  match e with
  | some v => v != 0 && decide (v ≤ now)
  | none => false

/-! Response messages, verbatim from the source. -/

def notFoundMsg (id : Nat) : String :=
  "Seat " ++ toString id ++ " does not exist."

def bookedMsg (id : Nat) : String :=
  "Seat " ++ toString id ++ " is already booked."

def alreadyLockedMsg (id : Nat) : String :=
  "Seat " ++ toString id ++ " is already locked. Try another seat."

def lockOkMsg (id : Nat) : String :=
  "Seat " ++ toString id ++ " locked successfully. Confirm within 1 minute."

def notLockedMsg : String := "Seat is not locked and cannot be booked"

def lockExpiredMsg : String := "Lock expired. Please lock the seat again."

def forbiddenMsg : String := "Seat locked by another user."

def confirmOkMsg (id : Nat) : String :=
  "Seat " ++ toString id ++ " booked successfully!"

def alreadyAvailableMsg (id : Nat) : String :=
  "Seat " ++ toString id ++ " already available."

def cannotUnlockMsg (id : Nat) : String :=
  "Seat " ++ toString id ++ " is booked; cannot unlock."

def unlockOkMsg (id : Nat) : String :=
  "Seat " ++ toString id ++ " lock cleared."

/-- The record written by a successful lock acquisition at time `now`:
`{ status: "locked", lockedBy: user, lockExpiresAt: now + LOCK_TTL }`
followed by `armSeatExpiry(id)`, which clears any old timer on the (fresh)
record and stores the handle of a timer due at `now + LOCK_TTL + 50`. -/
def lockedSeat (user : String) (now : Nat) : Seat :=
  { status := Status.locked
    lockedBy := some user
    lockExpiresAt := some (now + LOCK_TTL)
    timeoutId := some (now + LOCK_TTL + TIMER_BUFFER) }

/-- `app.post("/lock/:id")`, source lines 56-87.  Returns the response and
the store after the request.  Steps, in source order: 404 when the seat id
is unknown; lazy expiry (`clearSeatTimer` plus `seats[id] = { status:
"available" }`) when the seat is locked and its expiry instant is truthy
and `≤ now`; then 409 on booked, 423 on (still) locked, and otherwise the
lock is acquired and the expiry timer armed. -/
def lockSeat (st : Store) (id : Nat) (user : String) (now : Nat) :
    HttpResp × Store :=
  match st id with
  | none => ({ code := 404, message := notFoundMsg id }, st)
  | some seat =>
    let seat1 :=
      if seat.status = Status.locked ∧ truthyExpired seat.lockExpiresAt now
      then freshSeat else seat
    let st1 :=
      if seat.status = Status.locked ∧ truthyExpired seat.lockExpiresAt now
      then setSeat st id freshSeat else st
    if seat1.status = Status.booked then
      ({ code := 409, message := bookedMsg id }, st1)
    else if seat1.status = Status.locked then
      ({ code := 423, message := alreadyLockedMsg id }, st1)
    else
      ({ code := 200, message := lockOkMsg id },
        setSeat st1 id (lockedSeat user now))

/-- `app.post("/confirm/:id")`, source lines 90-119.  Steps, in source
order: 404 when the seat id is unknown; 400 when the status is not locked;
408 with lazy expiry when the expiry instant is truthy and `≤ now`; 403
when `lockedBy` differs from the caller; otherwise `clearSeatTimer` and
`seats[id] = { status: "booked" }` with a 200. -/
def confirmSeat (st : Store) (id : Nat) (user : String) (now : Nat) :
    HttpResp × Store :=
  match st id with
  | none => ({ code := 404, message := notFoundMsg id }, st)
  | some seat =>
    if seat.status ≠ Status.locked then
      ({ code := 400, message := notLockedMsg }, st)
    else if truthyExpired seat.lockExpiresAt now then
      ({ code := 408, message := lockExpiredMsg }, setSeat st id freshSeat)
    else if seat.lockedBy ≠ some user then
      ({ code := 403, message := forbiddenMsg }, st)
    else
      ({ code := 200, message := confirmOkMsg id },
        setSeat st id { status := Status.booked })

/-- `app.post("/unlock/:id")`, source lines 123-138: 404 when unknown, 200
no-op when available, 409 when booked, otherwise `clearSeatTimer` and
`seats[id] = { status: "available" }` with a 200. -/
def unlockSeat (st : Store) (id : Nat) : HttpResp × Store :=
  match st id with
  | none => ({ code := 404, message := notFoundMsg id }, st)
  | some seat =>
    if seat.status = Status.available then
      ({ code := 200, message := alreadyAvailableMsg id }, st)
    else if seat.status = Status.booked then
      ({ code := 409, message := cannotUnlockMsg id }, st)
    else
      ({ code := 200, message := unlockOkMsg id }, setSeat st id freshSeat)

/-- The scheduled-expiry callback armed by `armSeatExpiry` (source lines
36-41), run with `now = Date.now()` at firing time: if the seat is still
locked and its expiry instant is truthy and `≤ now`, it is reclaimed with
`seats[seatId] = { status: "available" }`; otherwise nothing is written.
Seat ids are never removed from the store and the timer is only armed for
an existing seat, so the `none` arm is unreachable and is embedded as a
no-op. -/
def fireExpiry (st : Store) (id : Nat) (now : Nat) : Store :=
  match st id with
  | none => st
  | some seat =>
    if seat.status = Status.locked ∧ truthyExpired seat.lockExpiresAt now
    then setSeat st id freshSeat
    else st

/-- `app.get("/seats")`, source lines 46-53: the public view maps each seat
id to its stored status, with no side effect on the store. -/
def listSeats (st : Store) : Nat → Option Status :=
  fun id => (st id).map Seat.status

/-- The state-shape condition of the spec (§3): `lockedBy` and
`lockExpiresAt` are set if and only if the status is Locked. -/
def seatWF (seat : Seat) : Prop :=
  (seat.lockedBy.isSome ↔ seat.status = Status.locked) ∧
  (seat.lockExpiresAt.isSome ↔ seat.status = Status.locked)

/-- Every seat present in the store satisfies `seatWF`. -/
def storeWF (st : Store) : Prop :=
  ∀ id seat, st id = some seat → seatWF seat

/-- Ghost-instrumented seat for the scheduled-expiry analysis.  The spec
(§4.2, §9, glossary) speaks of a per-seat lock epoch, incremented on every
successful lock, that the expiry callback is supposed to compare against
the epoch it was armed for.  The source stores no such counter, so `epoch`
is a ghost field carried alongside the fields the source does have; it is
written by nothing in the callback below. -/
structure TimedSeat where
  status : Status
  lockExpiresAt : Option Nat := none
  epoch : Nat := 0
deriving DecidableEq, Repr

/-- The scheduled-expiry callback of `armSeatExpiry` (source lines 36-41)
acting on the seat it was armed for, instrumented with the ghost epoch the
timer was armed under.  Translated from the source, the guard is only
`status === "locked" && lockExpiresAt && lockExpiresAt <= now`; the armed
epoch is ignored, which is what the C3 analysis below exhibits. -/
def fireCallbackE (seat : TimedSeat) (_armedEpoch : Nat) (now : Nat) : TimedSeat :=
  if seat.status = Status.locked ∧ truthyExpired seat.lockExpiresAt now
  then { status := Status.available, lockExpiresAt := none, epoch := seat.epoch }
  else seat

/-! Concrete states used by the witnesses and counterexamples. -/

/-- The store after a successful `lock(1, "A", 0)` from startup. -/
def demoLockedStore : Store := (lockSeat initialSeats 1 "A" 0).2

/-- The store after `lock(1, "A", 0)` followed by `confirm(1, "A", 100)`. -/
def demoBookedStore : Store := (confirmSeat demoLockedStore 1 "A" 100).2

/-- A seat whose lock, taken at time 0, has reached its expiry instant by
time 60000 (`lockExpiresAt = 60000`). -/
def demoExpiredSeat : Seat :=
  { status := Status.locked, lockedBy := some "A",
    lockExpiresAt := some 60000, timeoutId := some 60050 }

/-- A store holding `demoExpiredSeat` at seat 1. -/
def demoExpiredStore : Store := setSeat initialSeats 1 demoExpiredSeat

/-- A ghost-instrumented seat on its second lock (epoch 2) whose current
lock has expired by time 200. -/
def demoStaleTimerSeat : TimedSeat :=
  { status := Status.locked, lockExpiresAt := some 100, epoch := 2 }

/-! ## Theorems for the specification claims -/

/-- Claim C1 — mutual exclusion on lock.  If seat `id` holds a lock whose
expiry instant is `t0 + LOCK_TTL`, then (1) any `lock` by any caller at a
time `t < t0 + LOCK_TTL` fails with AlreadyLocked (HTTP 423) and leaves the
store unchanged; (2) any `lock` at `t ≥ t0 + LOCK_TTL` succeeds: lazy
expiry first reclaims the seat to Available and the new lock is then
acquired; (3) of two lock attempts on the same Available seat, the first
succeeds and the second, made while the first lock is unexpired, fails with
AlreadyLocked — exactly one succeeds. -/
theorem lock_mutual_exclusion
    (st : Store) (id : Nat) (seat : Seat) (t0 : Nat)
    (h : st id = some seat) (hs : seat.status = Status.locked)
    (he : seat.lockExpiresAt = some (t0 + LOCK_TTL)) :
    (∀ (B : String) (t : Nat), t < t0 + LOCK_TTL →
        lockSeat st id B t = ({ code := 423, message := alreadyLockedMsg id }, st))
  ∧ (∀ (B : String) (t : Nat), t0 + LOCK_TTL ≤ t →
        lockSeat st id B t =
          ({ code := 200, message := lockOkMsg id },
           setSeat (setSeat st id freshSeat) id (lockedSeat B t)))
  ∧ (∀ (st0 : Store) (seat0 : Seat) (A B : String) (t t2 : Nat),
        st0 id = some seat0 → seat0.status = Status.available →
        t ≤ t2 → t2 < t + LOCK_TTL →
        (lockSeat st0 id A t).1.code = 200 ∧
        (lockSeat (lockSeat st0 id A t).2 id B t2).1.code = 423) := by
  refine ⟨?_, ?_, ?_⟩
  · intro B t ht
    have hne : ¬ (t0 + LOCK_TTL ≤ t) := by omega
    simp [lockSeat, h, hs, he, truthyExpired, hne]
  · intro B t ht
    have hz : t0 + LOCK_TTL ≠ 0 := by simp [LOCK_TTL]
    simp [lockSeat, h, hs, he, truthyExpired, ht, hz, freshSeat]
  · intro st0 seat0 A B t t2 h0 hs0 ht1 ht2
    have hres : lockSeat st0 id A t =
        ({ code := 200, message := lockOkMsg id }, setSeat st0 id (lockedSeat A t)) := by
      simp [lockSeat, h0, hs0]
    have hne : ¬ (t + LOCK_TTL ≤ t2) := by omega
    constructor
    · rw [hres]
    · rw [hres]
      simp [lockSeat, setSeat, lockedSeat, truthyExpired, hne]

/-- Claim C1, witness: the three conclusions instantiated on the store in
which caller "A" locked seat 1 at time 0. -/
theorem lock_mutual_exclusion_witness :
    (lockSeat demoLockedStore 1 "B" 59999 =
      ({ code := 423, message := alreadyLockedMsg 1 }, demoLockedStore))
  ∧ (lockSeat demoLockedStore 1 "B" 60000 =
      ({ code := 200, message := lockOkMsg 1 },
       setSeat (setSeat demoLockedStore 1 freshSeat) 1 (lockedSeat "B" 60000)))
  ∧ ((lockSeat initialSeats 1 "A" 0).1.code = 200 ∧
     (lockSeat (lockSeat initialSeats 1 "A" 0).2 1 "B" 0).1.code = 423) := by
  have h := lock_mutual_exclusion demoLockedStore 1 (lockedSeat "A" 0) 0
    (by decide) (by decide) (by decide)
  exact ⟨h.1 "B" 59999 (by decide), h.2.1 "B" 60000 (by decide),
    h.2.2 initialSeats freshSeat "A" "B" 0 0 (by decide) (by decide)
      (by decide) (by decide)⟩

/-- Claim C2 — confirm respects the lock window.  With seat `id` locked by
`A` until `t0 + LOCK_TTL`: a `confirm` by `A` at `t < t0 + LOCK_TTL`
succeeds (HTTP 200) and writes `{ status: "booked" }`; a `confirm` by `A`
at `t ≥ t0 + LOCK_TTL` fails with LockExpired (HTTP 408) and reclaims the
seat to a fresh Available record. -/
theorem confirm_respects_lock_window
    (st : Store) (id : Nat) (seat : Seat) (A : String) (t0 t : Nat)
    (h : st id = some seat) (hs : seat.status = Status.locked)
    (hb : seat.lockedBy = some A)
    (he : seat.lockExpiresAt = some (t0 + LOCK_TTL)) :
    (t < t0 + LOCK_TTL →
      confirmSeat st id A t =
        ({ code := 200, message := confirmOkMsg id },
         setSeat st id { status := Status.booked }))
  ∧ (t0 + LOCK_TTL ≤ t →
      confirmSeat st id A t =
        ({ code := 408, message := lockExpiredMsg }, setSeat st id freshSeat)) := by
  constructor
  · intro ht
    have hne : ¬ (t0 + LOCK_TTL ≤ t) := by omega
    simp [confirmSeat, h, hs, hb, he, truthyExpired, hne]
  · intro ht
    have hz : t0 + LOCK_TTL ≠ 0 := by simp [LOCK_TTL]
    simp [confirmSeat, h, hs, he, truthyExpired, ht, hz]

/-- Claim C2, witness: both conclusions at the lock taken by "A" on seat 1
at time 0, confirmed at times 59999 and 60000. -/
theorem confirm_respects_lock_window_witness :
    (confirmSeat demoLockedStore 1 "A" 59999 =
      ({ code := 200, message := confirmOkMsg 1 },
       setSeat demoLockedStore 1 { status := Status.booked }))
  ∧ (confirmSeat demoLockedStore 1 "A" 60000 =
      ({ code := 408, message := lockExpiredMsg },
       setSeat demoLockedStore 1 freshSeat)) := by
  have h := confirm_respects_lock_window demoLockedStore 1 (lockedSeat "A" 0) "A" 0
  exact ⟨(h 59999 (by decide) (by decide) (by decide) (by decide)).1 (by decide),
    (h 60000 (by decide) (by decide) (by decide) (by decide)).2 (by decide)⟩

/-- Claim C6 — owner isolation with atomicity on error.  While seat `id` is
locked by `A` and unexpired (`t < e`), a `confirm` by any `B ≠ A` fails
with ForbiddenOwner (HTTP 403) and returns the store unchanged, so status,
`lockedBy` and `lockExpiresAt` are all untouched. -/
theorem confirm_owner_isolation
    (st : Store) (id : Nat) (seat : Seat) (A B : String) (e t : Nat)
    (h : st id = some seat) (hs : seat.status = Status.locked)
    (hb : seat.lockedBy = some A) (he : seat.lockExpiresAt = some e)
    (ht : t < e) (hAB : B ≠ A) :
    confirmSeat st id B t = ({ code := 403, message := forbiddenMsg }, st) := by
  have hne : ¬ (e ≤ t) := by omega
  have hBA : some A ≠ some B := by simpa using fun hc => hAB hc.symm
  simp [confirmSeat, h, hs, hb, he, truthyExpired, hne, hBA]

/-- Claim C6, witness: caller "B" cannot confirm the seat "A" locked at
time 0, and the store comes back unchanged. -/
theorem confirm_owner_isolation_witness :
    confirmSeat demoLockedStore 1 "B" 100 =
      ({ code := 403, message := forbiddenMsg }, demoLockedStore) :=
  confirm_owner_isolation demoLockedStore 1 (lockedSeat "A" 0) "A" "B" 60000 100
    (by decide) (by decide) (by decide) (by decide) (by decide) (by decide)

/-- Claim C7 — Booked is terminal and immutable.  Once seat `id` is booked:
every `lock` fails with AlreadyBooked (HTTP 409), `release` fails with
CannotReleaseBooked (HTTP 409), every `confirm` fails with NotLocked (HTTP
400), and the scheduled-expiry callback is a no-op — each operation returns
the store unchanged, so the seat stays Booked forever. -/
theorem booked_is_terminal
    (st : Store) (id : Nat) (seat : Seat)
    (h : st id = some seat) (hs : seat.status = Status.booked) :
    (∀ (user : String) (t : Nat),
        lockSeat st id user t = ({ code := 409, message := bookedMsg id }, st))
  ∧ (unlockSeat st id = ({ code := 409, message := cannotUnlockMsg id }, st))
  ∧ (∀ (user : String) (t : Nat),
        confirmSeat st id user t = ({ code := 400, message := notLockedMsg }, st))
  ∧ (∀ (t : Nat), fireExpiry st id t = st) := by
  refine ⟨?_, ?_, ?_, ?_⟩
  · intro user t
    simp [lockSeat, h, hs]
  · simp [unlockSeat, h, hs]
  · intro user t
    simp [confirmSeat, h, hs]
  · intro t
    simp [fireExpiry, h, hs]

/-- Claim C7, witness: after "A" books seat 1, a later lock, unlock,
confirm, and timer firing all leave the store unchanged with the stated
error codes. -/
theorem booked_is_terminal_witness :
    (lockSeat demoBookedStore 1 "B" 777 =
      ({ code := 409, message := bookedMsg 1 }, demoBookedStore))
  ∧ (unlockSeat demoBookedStore 1 =
      ({ code := 409, message := cannotUnlockMsg 1 }, demoBookedStore))
  ∧ (confirmSeat demoBookedStore 1 "A" 777 =
      ({ code := 400, message := notLockedMsg }, demoBookedStore))
  ∧ (fireExpiry demoBookedStore 1 999999 = demoBookedStore) := by
  have h := booked_is_terminal demoBookedStore 1 { status := Status.booked }
    (by decide) (by decide)
  exact ⟨h.1 "B" 777, h.2.1, h.2.2.1 "A" 777, h.2.2.2 999999⟩

/-- Claim C9 — release is idempotent.  `unlock` on an Available seat is a
200 no-op; on a Locked seat it clears the pending expiry handle and writes
a fresh Available record with a 200; hence on any non-Booked seat two
releases in a row both return 200 and end in the same store. -/
theorem release_idempotent
    (st : Store) (id : Nat) (seat : Seat) (h : st id = some seat) :
    (seat.status = Status.available →
        unlockSeat st id = ({ code := 200, message := alreadyAvailableMsg id }, st))
  ∧ (seat.status = Status.locked →
        unlockSeat st id =
          ({ code := 200, message := unlockOkMsg id }, setSeat st id freshSeat))
  ∧ (seat.status ≠ Status.booked →
        (unlockSeat st id).1.code = 200 ∧
        (unlockSeat (unlockSeat st id).2 id).1.code = 200 ∧
        (unlockSeat (unlockSeat st id).2 id).2 = (unlockSeat st id).2) := by
  refine ⟨?_, ?_, ?_⟩
  · intro hs
    simp [unlockSeat, h, hs]
  · intro hs
    simp [unlockSeat, h, hs]
  · intro hs
    cases hstat : seat.status with
    | available =>
      simp [unlockSeat, h, hstat]
    | locked =>
      simp [unlockSeat, h, hstat, setSeat, freshSeat]
    | booked => exact absurd hstat hs

/-- Claim C9, witness: release of the untouched (Available) seat 1 is a
no-op; release of the seat locked by "A" clears it; releasing the locked
seat twice gives 200 both times and the same final store. -/
theorem release_idempotent_witness :
    (unlockSeat initialSeats 1 =
      ({ code := 200, message := alreadyAvailableMsg 1 }, initialSeats))
  ∧ (unlockSeat demoLockedStore 1 =
      ({ code := 200, message := unlockOkMsg 1 }, setSeat demoLockedStore 1 freshSeat))
  ∧ ((unlockSeat demoLockedStore 1).1.code = 200 ∧
     (unlockSeat (unlockSeat demoLockedStore 1).2 1).1.code = 200 ∧
     (unlockSeat (unlockSeat demoLockedStore 1).2 1).2 = (unlockSeat demoLockedStore 1).2) :=
  ⟨(release_idempotent initialSeats 1 freshSeat (by decide)).1 (by decide),
   (release_idempotent demoLockedStore 1 (lockedSeat "A" 0) (by decide)).2.1 (by decide),
   (release_idempotent demoLockedStore 1 (lockedSeat "A" 0) (by decide)).2.2 (by decide)⟩

/-- Claim C10 — per-seat frame property.  Each of `lock`, `confirm`,
`unlock` and the expiry callback for seat `id` leaves every other seat `j ≠
id` exactly as it was, and never adds or removes a seat id: the presence of
a record at `id` is also preserved. -/
theorem per_seat_frame
    (st : Store) (id : Nat) (user : String) (now : Nat) (j : Nat) (hj : j ≠ id) :
    ((lockSeat st id user now).2 j = st j)
  ∧ ((confirmSeat st id user now).2 j = st j)
  ∧ ((unlockSeat st id).2 j = st j)
  ∧ (fireExpiry st id now j = st j)
  ∧ (((lockSeat st id user now).2 id).isSome = (st id).isSome)
  ∧ (((confirmSeat st id user now).2 id).isSome = (st id).isSome)
  ∧ (((unlockSeat st id).2 id).isSome = (st id).isSome)
  ∧ ((fireExpiry st id now id).isSome = (st id).isSome) := by
  cases h : st id with
  | none =>
    refine ⟨?_, ?_, ?_, ?_, ?_, ?_, ?_, ?_⟩ <;>
      simp [lockSeat, confirmSeat, unlockSeat, fireExpiry, h]
  | some seat =>
    refine ⟨?_, ?_, ?_, ?_, ?_, ?_, ?_, ?_⟩ <;>
      · simp only [lockSeat, confirmSeat, unlockSeat, fireExpiry, h]
        split_ifs <;> simp [setSeat, hj, h]

/-- Claim C10, witness: the four operations on seat 1 from startup leave
seat 2 untouched and keep a record present at seat 1. -/
theorem per_seat_frame_witness :
    ((lockSeat initialSeats 1 "A" 0).2 2 = initialSeats 2)
  ∧ ((confirmSeat initialSeats 1 "A" 0).2 2 = initialSeats 2)
  ∧ ((unlockSeat initialSeats 1).2 2 = initialSeats 2)
  ∧ (fireExpiry initialSeats 1 0 2 = initialSeats 2)
  ∧ (((lockSeat initialSeats 1 "A" 0).2 1).isSome = (initialSeats 1).isSome)
  ∧ (((confirmSeat initialSeats 1 "A" 0).2 1).isSome = (initialSeats 1).isSome)
  ∧ (((unlockSeat initialSeats 1).2 1).isSome = (initialSeats 1).isSome)
  ∧ ((fireExpiry initialSeats 1 0 1).isSome = (initialSeats 1).isSome) :=
  per_seat_frame initialSeats 1 "A" 0 2 (by decide)

/-- Helper: writing a well-shaped seat preserves the store invariant. -/
theorem storeWF_setSeat (st : Store) (hwf : storeWF st) (id : Nat) (s : Seat)
    (hs : seatWF s) : storeWF (setSeat st id s) := by
  intro j seatj hj
  by_cases hji : j = id
  · subst hji
    simp [setSeat] at hj
    exact hj ▸ hs
  · simp [setSeat, hji] at hj
    exact hwf j seatj hj

/-- Claim C8 — state-shape invariant.  The startup store satisfies the
shape condition (`lockedBy`/`lockExpiresAt` present iff Locked), and each
of `lock`, `confirm`, `unlock` and the expiry callback preserves it: lock
writes both fields with the Locked status, and every transition out of
Locked writes a record with both fields absent. -/
theorem state_shape_invariant :
    storeWF initialSeats ∧
    ∀ (st : Store), storeWF st →
      (∀ (id : Nat) (user : String) (now : Nat), storeWF (lockSeat st id user now).2) ∧
      (∀ (id : Nat) (user : String) (now : Nat), storeWF (confirmSeat st id user now).2) ∧
      (∀ (id : Nat), storeWF (unlockSeat st id).2) ∧
      (∀ (id : Nat) (now : Nat), storeWF (fireExpiry st id now)) := by
  have hfresh : seatWF freshSeat := by simp [seatWF, freshSeat]
  have hbooked : seatWF { status := Status.booked } := by simp [seatWF]
  constructor
  · intro j seatj hj
    simp only [initialSeats] at hj
    split at hj
    · exact (Option.some_inj.mp hj) ▸ hfresh
    · exact absurd hj (by simp)
  · intro st hwf
    have hlocked : ∀ (user : String) (now : Nat), seatWF (lockedSeat user now) := by
      intro user now; simp [seatWF, lockedSeat]
    refine ⟨?_, ?_, ?_, ?_⟩
    · intro id user now
      cases h : st id with
      | none => simpa [lockSeat, h] using hwf
      | some seat =>
        simp only [lockSeat, h]
        split_ifs <;>
          first
            | exact hwf
            | exact storeWF_setSeat st hwf id freshSeat hfresh
            | exact storeWF_setSeat _ hwf id _ (hlocked user now)
            | exact storeWF_setSeat _ (storeWF_setSeat st hwf id freshSeat hfresh)
                id _ (hlocked user now)
    · intro id user now
      cases h : st id with
      | none => simpa [confirmSeat, h] using hwf
      | some seat =>
        simp only [confirmSeat, h]
        split_ifs <;>
          first
            | exact hwf
            | exact storeWF_setSeat st hwf id freshSeat hfresh
            | exact storeWF_setSeat st hwf id _ hbooked
    · intro id
      cases h : st id with
      | none => simpa [unlockSeat, h] using hwf
      | some seat =>
        simp only [unlockSeat, h]
        split_ifs <;>
          first
            | exact hwf
            | exact storeWF_setSeat st hwf id freshSeat hfresh
    · intro id now
      cases h : st id with
      | none => simpa [fireExpiry, h] using hwf
      | some seat =>
        simp only [fireExpiry, h]
        split_ifs <;>
          first
            | exact hwf
            | exact storeWF_setSeat st hwf id freshSeat hfresh

/-- Claim C8, witness: the invariant holds of the store reached by locking
seat 1 from the (well-shaped) startup store. -/
theorem state_shape_invariant_witness :
    storeWF (lockSeat initialSeats 1 "A" 0).2 :=
  (state_shape_invariant.2 initialSeats state_shape_invariant.1).1 1 "A" 0

/-- Claim C3, counterexample.  The claim states that the expiry callback
reclaims the seat only when, among other conditions, the stored lock epoch
matches the epoch the timer was armed for.  In the source the callback
checks only `status === "locked" && lockExpiresAt && lockExpiresAt <= now`
— no epoch is stored or compared.  Concretely: the seat is on epoch 2, the
firing timer carries armed epoch 1 (a mismatch), the seat is locked and
expired, and the callback still changes the seat. -/
theorem scheduled_expiry_ignores_epoch :
    demoStaleTimerSeat.epoch ≠ 1
  ∧ demoStaleTimerSeat.status = Status.locked
  ∧ truthyExpired demoStaleTimerSeat.lockExpiresAt 200 = true
  ∧ fireCallbackE demoStaleTimerSeat 1 200 ≠ demoStaleTimerSeat := by decide

/-- Claim C3, amended — scheduled-expiry guard without an epoch.  When the
callback for seat `id` runs at time `now`, it reclaims the seat to a fresh
Available record exactly when the seat is still Locked and its expiry
instant is present, truthy and `≤ now`; in every other case the store is
returned unchanged.  (A timer that fires while the current lock is still
unexpired therefore cannot evict it; no epoch is consulted.) -/
theorem scheduled_expiry_guard
    (st : Store) (id : Nat) (seat : Seat) (now : Nat) (h : st id = some seat) :
    (seat.status = Status.locked ∧ truthyExpired seat.lockExpiresAt now = true →
       fireExpiry st id now = setSeat st id freshSeat)
  ∧ (¬ (seat.status = Status.locked ∧ truthyExpired seat.lockExpiresAt now = true) →
       fireExpiry st id now = st) := by
  constructor
  · intro hc
    simp [fireExpiry, h, hc.1, hc.2]
  · intro hc
    simp only [fireExpiry, h]
    rw [if_neg]
    simpa using hc

/-- Claim C3, witness for the amended theorem: the callback reclaims the
expired lock on seat 1 and leaves the store with an unexpired lock (timer
firing at time 0) untouched. -/
theorem scheduled_expiry_guard_witness :
    (fireExpiry demoExpiredStore 1 60000 = setSeat demoExpiredStore 1 freshSeat)
  ∧ (fireExpiry demoLockedStore 1 0 = demoLockedStore) :=
  ⟨(scheduled_expiry_guard demoExpiredStore 1 demoExpiredSeat 60000 (by decide)).1
      ⟨by decide, by decide⟩,
   (scheduled_expiry_guard demoLockedStore 1 (lockedSeat "A" 0) 0 (by decide)).2
      (by decide)⟩

/-- Claim C4, counterexample.  The claim includes `listSeats` among the
operations that perform lazy expiry.  In the source, `GET /seats` only maps
each record to its stored status and performs no expiry: at time 60000 the
seat below is Locked with a truthy `lockExpiresAt ≤ now`, yet the view
still reports Locked (were the seat first transitioned to Available as
claimed, the view would report Available), and `listSeats` writes nothing
to the store at all. -/
theorem listSeats_ignores_expired_lock :
    demoExpiredSeat.status = Status.locked
  ∧ truthyExpired demoExpiredSeat.lockExpiresAt 60000 = true
  ∧ listSeats demoExpiredStore 1 = some Status.locked := by decide

/-- Claim C4, amended — lazy expiry in the mutating operations.  On a seat
that is Locked with a truthy `lockExpiresAt ≤ now`, a `lock` behaves
exactly as it would on the store in which the seat had already been
reclaimed to Available, and a `confirm` reclaims the seat to Available and
fails with LockExpired (HTTP 408); `listSeats` performs no expiry and still
reports the stored Locked status.  The authoritative expiry test everywhere
is the truthy comparison `lockExpiresAt ≤ now` at the instant of the
operation. -/
theorem lazy_expiry_in_lock_and_confirm
    (st : Store) (id : Nat) (seat : Seat) (now : Nat)
    (h : st id = some seat) (hs : seat.status = Status.locked)
    (he : truthyExpired seat.lockExpiresAt now = true) :
    (∀ (user : String),
        lockSeat st id user now = lockSeat (setSeat st id freshSeat) id user now)
  ∧ (∀ (user : String),
        confirmSeat st id user now =
          ({ code := 408, message := lockExpiredMsg }, setSeat st id freshSeat))
  ∧ listSeats st id = some Status.locked := by
  refine ⟨?_, ?_, ?_⟩
  · intro user
    simp [lockSeat, h, hs, he, setSeat, freshSeat]
  · intro user
    simp [confirmSeat, h, hs, he]
  · simp [listSeats, h, hs]

/-- Claim C4, witness for the amended theorem, on the expired lock of seat
1 at time 60000. -/
theorem lazy_expiry_in_lock_and_confirm_witness :
    (lockSeat demoExpiredStore 1 "B" 60000 =
        lockSeat (setSeat demoExpiredStore 1 freshSeat) 1 "B" 60000)
  ∧ (confirmSeat demoExpiredStore 1 "A" 60000 =
        ({ code := 408, message := lockExpiredMsg }, setSeat demoExpiredStore 1 freshSeat))
  ∧ listSeats demoExpiredStore 1 = some Status.locked := by
  have h := lazy_expiry_in_lock_and_confirm demoExpiredStore 1 demoExpiredSeat 60000
    (by decide) (by decide) (by decide)
  exact ⟨h.1 "B", h.2.1 "A", h.2.2⟩

/-- Claim C5, counterexample.  The claim states that the success result of
a lock returns the expiry instant to the caller.  In the source the 200
response carries only the fixed message string: two successful locks taken
at different times produce different expiry instants (60000 and 61000) yet
byte-identical responses, so the response cannot communicate the expiry
instant. -/
theorem lock_response_omits_expiry :
    ((lockSeat initialSeats 1 "A" 0).2 1 = some (lockedSeat "A" 0))
  ∧ ((lockSeat initialSeats 1 "A" 1000).2 1 = some (lockedSeat "A" 1000))
  ∧ (lockedSeat "A" 0).lockExpiresAt = some 60000
  ∧ (lockedSeat "A" 1000).lockExpiresAt = some 61000
  ∧ (lockSeat initialSeats 1 "A" 0).1 = (lockSeat initialSeats 1 "A" 1000).1 := by
  decide

/-- Claim C5, amended — effect of a successful lock.  A `lock` on an
Available seat returns HTTP 200 with the fixed success message (which does
not include the expiry instant) and writes the record with status Locked,
`lockedBy` the caller, `lockExpiresAt = now + LOCK_TTL`, and a freshly
armed expiry entry due at `now + LOCK_TTL + 50` replacing any stale
pending handle. -/
theorem lock_success_effect
    (st : Store) (id : Nat) (seat : Seat) (user : String) (now : Nat)
    (h : st id = some seat) (hs : seat.status = Status.available) :
    lockSeat st id user now =
      ({ code := 200, message := lockOkMsg id }, setSeat st id (lockedSeat user now)) := by
  simp [lockSeat, h, hs]

/-- Claim C5, witness for the amended theorem: locking seat 1 from startup. -/
theorem lock_success_effect_witness :
    lockSeat initialSeats 1 "A" 0 =
      ({ code := 200, message := lockOkMsg 1 }, setSeat initialSeats 1 (lockedSeat "A" 0)) :=
  lock_success_effect initialSeats 1 freshSeat "A" 0 (by decide) (by decide)
